import Mathlib

/-!
# stationexec: bootstrap launcher and resource packer

A shallow embedding of `launcher/launcher.cpp` and
`resource_updater/resource_updater.cpp`.

Conventions of the embedding.

* A narrow C string (`char*`) and a wide C string (`wchar_t*`) are both lists of
  characters; a resource blob and a file content are lists of `char` as well
  (the source reads them through `char*`).
* The program never calls `setlocale`, so the C runtime converts between narrow
  and wide characters (`%S`, `%ls`) value by value: `widen` keeps every
  character.
* The resource container of an executable is a partial map from a numeric ID to
  a blob (`RT_RCDATA` entries).  `FindResource` of an absent ID yields `NULL`,
  and then `SizeofResource` is `0` and `LockResource` is `NULL`.
* The file system is a partial map from a path to a node, together with a
  fixed set of paths at which the operating system refuses to create, write or
  delete (`deny`).  Paths are compared literally.
* An abnormal end of the process (the C runtime's invalid-parameter handler, a
  read through `NULL`, a call through a `NULL` function pointer, a store past
  the end of a fixed array) is a `Fault`.
-/

namespace Stationexec

/-! ## Strings, resources, faults -/

/-- Narrow C string, without its terminating NUL. -/
abbrev CStr := List Char

/-- Wide C string, without its terminating NUL. -/
abbrev WStr := List Char

/-- Resource container: the `RT_RCDATA` blob stored under each numeric ID. -/
abbrev Resources := Nat → Option (List Char)

/-- Ways in which the process ends abnormally. -/
inductive Fault where
  /-- The C runtime invalid-parameter handler ran (`NULL` format, buffer too small). -/
  | invalidParameter
  /-- A read through a `NULL` pointer. -/
  | nullRead
  /-- A call through a `NULL` function pointer. -/
  | nullCall
  /-- An access past the end of a fixed-size array or of a blob. -/
  | outOfBounds
  /-- A resource used as a format string holds a conversion directive. -/
  | formatDirective
  /-- The allocation `new BYTE[0xFFFFFFFF]` for a file that could not be opened. -/
  | allocation
  deriving DecidableEq, Repr

def PYTHON_VERSION_LOCATION : Nat := 34
def PYTHON_LONG_VERSION_LOCATION : Nat := 35
def MAIN_FILE_NAME_LOCATION : Nat := 36
def MAIN_FILE_DATA_LOCATION : Nat := 37
def LIB_NAME_LOCATION : Nat := 38
def LIB_FILE_LOCATION : Nat := 39
def PROGRAM_NAME_LOCATION : Nat := 42
def PROGRAM_FILE_LOCATION : Nat := 43
def PY_RESOURCE_HASH_NAME_LOCATION : Nat := 46
def PY_RESOURCE_HASH_LOCATION : Nat := 47
def PY_RESOURCE_ZIP_NAME_LOCATION : Nat := 48
def PY_RESOURCE_ZIP_LOCATION : Nat := 49
def PY_RESOURCE_COUNT_LOCATION : Nat := 50
def PY_RESOURCE_FILES_START_LOCATION : Nat := 51
def PY_RESOURCE_NAMES_START_LOCATION : Nat := 151

/-- The constant `_MAX_PATH` of the Windows headers. -/
def MAX_PATH : Nat := 260

/-- The NUL character. -/
def NUL : Char := Char.ofNat 0

/-- The path separator written `\\` in the source. -/
def BSL : Char := Char.ofNat 92

/-- Conversion of a narrow string to a wide one by `%S` in the "C" locale. -/
def widen (s : CStr) : WStr := s

/-- The bounded formatter `_snprintf_s(buffer, sizeOfBuffer, count, ...)` (and its
wide twin) once the formatted text `out` is known: with `count < sizeOfBuffer`
the text is cut to `count` characters; otherwise the text must fit in
`sizeOfBuffer - 1` characters, or the invalid-parameter handler ends the process. -/
def snprintf_s (sizeOfBuffer count : Nat) (out : List Char) : Except Fault (List Char) :=
  if count < sizeOfBuffer then .ok (out.take count)
  else if out.length < sizeOfBuffer then .ok out
  else .error .invalidParameter

/-- The call `_snprintf_s(buf, 256, SizeofResource(r), (char*)LockResource(r))`:
the resource blob itself is the format string.  An absent resource gives a `NULL`
format; the format ends at the first NUL; a percent sign in it is a directive
for which no argument was passed. -/
def resString (r : Option (List Char)) : Except Fault CStr :=
  match r with
  | none => .error .invalidParameter
  | some bytes =>
    let fmt := bytes.takeWhile (fun c => c != NUL)
    if fmt.contains (Char.ofNat 37) then .error .formatDirective
    else snprintf_s 256 bytes.length fmt

/-! ## File system -/

/-- File-system path. -/
abbrev Path := List Char

/-- What a path names. -/
inductive Node where
  | file (content : List Char)
  | dir
  deriving DecidableEq, Repr

/-- File-system state. -/
abbrev FS := Path → Option Node

/-- Paths at which the operating system refuses create, write and delete. -/
abbrev Deny := Path → Bool

/-- The state `fs` with `p` bound to `n`. -/
def FS.set (fs : FS) (p : Path) (n : Option Node) : FS :=
  fun q => if q = p then n else fs q

def check_if_directory_exists (fs : FS) (path : Path) : Bool :=
  match fs path with
  | some .dir => true
  | _ => false

def check_if_file_exists (fs : FS) (path : Path) : Bool :=
  match fs path with
  | some (.file _) => true
  | _ => false

/-- The call `DeleteFileA(path)`: removes an existing file unless refused. -/
def DeleteFileA (deny : Deny) (fs : FS) (path : Path) : FS :=
  if deny path then fs
  else match fs path with
    | some (.file _) => fs.set path none
    | _ => fs

/-- The call `CreateFile(path, GENERIC_WRITE, 0, NULL, CREATE_ALWAYS, ...)`: a new
empty file, or the existing file truncated; it fails (no handle) when refused
or when the path names a directory.  The handle is the path of the open file. -/
def CreateFile_always (deny : Deny) (fs : FS) (path : Path) : Option Path × FS :=
  if deny path then (none, fs)
  else match fs path with
    | some .dir => (none, fs)
    | _ => (some path, fs.set path (some (.file [])))

/-- The call `WriteFile(h, buf, n, ...)` on a handle just created: the first
`n` bytes of `buf` become the content; an invalid handle writes nothing. -/
def WriteFile (fs : FS) (h : Option Path) (buf : List Char) (n : Nat) : FS :=
  match h with
  | none => fs
  | some p => fs.set p (some (.file (buf.take n)))

/-- The call `CreateDirectory(path, NULL)`: fails when refused or when the path
is already taken. -/
def CreateDirectory (deny : Deny) (fs : FS) (path : Path) : FS :=
  if deny path then fs
  else match fs path with
    | some _ => fs
    | none => fs.set path (some .dir)

/-- The function `create_and_write_file_from_res` of the launcher. -/
def create_and_write_file_from_res (res : Resources) (deny : Deny)
    (name_res_number file_res_number : Nat) (path : CStr) (delete_existing : Bool)
    (fs : FS) : Except Fault FS := do
  let pyResource := res file_res_number
  let pyResourceSize := (pyResource.map List.length).getD 0
  let pyResourcePtr := pyResource.getD []
  let pyFileName ← resString (res name_res_number)
  let pyFilePath ← snprintf_s MAX_PATH MAX_PATH (path ++ [BSL] ++ pyFileName)
  let fs1 :=
    if check_if_file_exists fs pyFilePath then
      if delete_existing then DeleteFileA deny fs pyFilePath else fs
    else fs
  let (g_hFile, fs2) := CreateFile_always deny fs1 pyFilePath
  return WriteFile fs2 g_hFile pyResourcePtr pyResourceSize


/-! ## The launcher's `main` -/

/-- Exports of the runtime library, as `GetProcAddress` finds them: the main
entry maps the argument count and vector to its return code. -/
structure Runtime where
  Py_Main : Option (Int → List (Option WStr) → Int)
  Py_SetPythonHome : Bool
  Py_SetPath : Bool

/-- Everything the launcher reads from its surroundings. -/
structure Env where
  /-- The resources embedded in the launcher's own image. -/
  res : Resources
  /-- The folder `SHGetKnownFolderPath(FOLDERID_LocalAppData)` yields, if any. -/
  appPath : Option WStr
  /-- Paths the operating system refuses to create, write or delete. -/
  deny : Deny
  /-- The file system at process start. -/
  fs : FS
  /-- The call `LoadLibrary`: the library found at a path in a file system. -/
  loadLibrary : FS → Path → Option Runtime

/-- What the launcher did to the runtime library before the process ended. -/
structure Calls where
  /-- The file system left by lines 138-192, when they ran to their end. -/
  fs : Option FS
  /-- Argument of `Py_SetPythonHome`, when it was called. -/
  homeArg : Option WStr
  /-- Argument of `Py_SetPath`, when it was called. -/
  pathArg : Option WStr
  /-- Arguments of `Py_Main`, when it was called: the count and the 32 slots of
  `args`, unset ones `none`. -/
  pyMainArgs : Option (Int × List (Option WStr))
  /-- Value `Py_Main` returned. -/
  runtimeResult : Option Int

/-- A run of the launcher: the calls it made, and the value `main` returned or
the fault that ended the process. -/
structure Outcome where
  calls : Calls
  exit : Except Fault Int

/-- Sequencing inside `main`: a step that faults ends the process with the
calls made so far. -/
def Calls.step {α : Type} (sofar : Calls) (x : Except Fault α) (next : α → Outcome) : Outcome :=
  match x with
  | .error e => { calls := sofar, exit := .error e }
  | .ok a => next a

/-- Conversion of a wide string to a narrow one by `%ls` in the "C" locale. -/
def narrow (s : WStr) : CStr := s

/-- The text `%ls` prints for the folder pointer, `(null)` for `NULL`. -/
def appPathText (appPath : Option WStr) : CStr :=
  match appPath with
  | none => "(null)".toList
  | some w => narrow w

/-- The read `countPtr[0]` of the count resource as `unsigned char`. -/
def readCount (r : Option (List Char)) : Except Fault Nat :=
  match r with
  | none => .error .nullRead
  | some [] => .error .outOfBounds
  | some (c :: _) => .ok (c.toNat % 256)

/-- The loop `for (i = ...; i < count; i++)` over the runtime files, with `n`
iterations left and `i` the current index. -/
def extractLoop (res : Resources) (deny : Deny) (pythonHome : CStr) :
    Nat → Nat → FS → Except Fault FS
  | 0, _, fs => .ok fs
  | n + 1, i, fs => do
    let fs1 ← create_and_write_file_from_res res deny
      (PY_RESOURCE_NAMES_START_LOCATION + i) (PY_RESOURCE_FILES_START_LOCATION + i)
      pythonHome false fs
    extractLoop res deny pythonHome n (i + 1) fs1

/-- Lines 165-177 of the launcher: read the count byte, then extract each runtime file. -/
def runtimeExtraction (res : Resources) (deny : Deny) (pythonHome : CStr) (fs : FS) :
    Except Fault FS := do
  let count ← readCount (res PY_RESOURCE_COUNT_LOCATION)
  extractLoop res deny pythonHome count 0 fs

/-- Lines 179-192 of the launcher: the five application-level files. -/
def applicationFiles (res : Resources) (deny : Deny) (basePath : CStr) (fs : FS) :
    Except Fault FS := do
  let fs1 ← create_and_write_file_from_res res deny
    MAIN_FILE_NAME_LOCATION MAIN_FILE_DATA_LOCATION basePath true fs
  let fs2 ← create_and_write_file_from_res res deny
    LIB_NAME_LOCATION LIB_FILE_LOCATION basePath true fs1
  let fs3 ← create_and_write_file_from_res res deny
    PROGRAM_NAME_LOCATION PROGRAM_FILE_LOCATION basePath true fs2
  let fs4 ← create_and_write_file_from_res res deny
    PY_RESOURCE_ZIP_NAME_LOCATION PY_RESOURCE_ZIP_LOCATION basePath true fs3
  create_and_write_file_from_res res deny
    PY_RESOURCE_HASH_NAME_LOCATION PY_RESOURCE_HASH_LOCATION basePath true fs4

/-- The text of the second `_snwprintf_s` into `paths` (lines 209-222). -/
def searchPathText (basePath pyVersionNameLong pyVersionName : CStr) : WStr :=
  widen basePath ++ [';'] ++
  widen basePath ++ [BSL] ++ widen pyVersionNameLong ++ [';'] ++
  widen basePath ++ [BSL] ++ widen pyVersionNameLong ++ [BSL] ++ widen pyVersionName ++
    ".zip;".toList ++
  widen basePath ++ [BSL] ++ "lib.zip".toList

/-- An access at index `i` of an array of `size` elements. -/
def indexInto (size i : Nat) : Except Fault Unit :=
  if i < size then .ok () else .error .outOfBounds

/-- A call through a function pointer that `GetProcAddress` returned. -/
def callThrough (found : Bool) : Except Fault Unit :=
  if found then .ok () else .error .nullCall

/-- The loop of lines 232-235 from index `i` on: `rest` holds `argv[i..]`,
`clargs` has 32 rows of `_MAX_PATH` wide characters and `args` has 32 slots. -/
def forwardArgs : Nat → List CStr → List (Option WStr) → Except Fault (List (Option WStr))
  | _, [], args => .ok args
  | i, a :: rest, args => do
    indexInto 32 i
    let clarg ← snprintf_s MAX_PATH MAX_PATH (widen a)
    indexInto 32 (2 + i)
    forwardArgs (i + 1) rest (args.set (2 + i) (some clarg))

/-- What lines 138-192 of `main` leave behind: the strings built and the file system. -/
structure Installed where
  pyVersionName : CStr
  pyVersionNameLong : CStr
  basePath : CStr
  pythonHome : CStr
  fs : FS

/-- Lines 138-192 of `main`: read the version strings, build the two directory
paths, create the directories, extract the runtime files and the application files. -/
def install (env : Env) : Except Fault Installed := do
  let pyVersionName ← resString (env.res PYTHON_VERSION_LOCATION)
  let pyVersionNameLong ← resString (env.res PYTHON_LONG_VERSION_LOCATION)
  let appPath := appPathText env.appPath
  let basePath ← snprintf_s MAX_PATH MAX_PATH (appPath ++ [BSL] ++ "stationexec".toList)
  let pythonHome ← snprintf_s MAX_PATH MAX_PATH
    (appPath ++ [BSL] ++ "stationexec".toList ++ [BSL] ++ pyVersionNameLong)
  let fs1 :=
    if !check_if_directory_exists env.fs basePath then CreateDirectory env.deny env.fs basePath
    else env.fs
  let fs2 :=
    if !check_if_directory_exists fs1 pythonHome then CreateDirectory env.deny fs1 pythonHome
    else fs1
  let fs3 ← runtimeExtraction env.res env.deny pythonHome fs2
  let fs4 ← applicationFiles env.res env.deny basePath fs3
  return { pyVersionName := pyVersionName, pyVersionNameLong := pyVersionNameLong,
           basePath := basePath, pythonHome := pythonHome, fs := fs4 }

/-- The path of the runtime library (line 196). -/
def pythonDLLText (inst : Installed) : CStr :=
  inst.pythonHome ++ [BSL] ++ inst.pyVersionName ++ ".dll".toList

/-- The text of the last `_snwprintf_s` into `paths` (line 229). -/
def scriptText (basePath : CStr) : WStr :=
  widen basePath ++ [BSL] ++ widen "launch.py".toList

/-- Lines 196-243 of `main`: load the library, resolve the entry points, set
home and path, build the argument vector, call the runtime.  The value of
`pymain(...)` is dropped and `main` has no `return` statement, so a launch that
comes back from the runtime returns `0`.  (When the library does not load, the
source prints the system's error message and goes on.) -/
def launch (env : Env) (inst : Installed) (argv : List CStr) : Outcome :=
  let argc : Int := argv.length
  let c0 : Calls :=
    { fs := some inst.fs, homeArg := none, pathArg := none, pyMainArgs := none,
      runtimeResult := none }
  c0.step (snprintf_s MAX_PATH MAX_PATH (pythonDLLText inst)) fun pythonDLL =>
  let dll := env.loadLibrary inst.fs pythonDLL
  let pymain := dll.bind (fun d => d.Py_Main)
  let pysethome := (dll.map (fun d => d.Py_SetPythonHome)).getD false
  let pysetpath := (dll.map (fun d => d.Py_SetPath)).getD false
  c0.step (snprintf_s 32768 32768
    (widen inst.basePath ++ [BSL] ++ widen inst.pyVersionNameLong)) fun home =>
  c0.step (callThrough pysethome) fun _ =>
  let c1 : Calls := { c0 with homeArg := some home }
  c1.step (snprintf_s 32768 32768
    (searchPathText inst.basePath inst.pyVersionNameLong inst.pyVersionName)) fun paths =>
  c1.step (callThrough pysetpath) fun _ =>
  let c2 : Calls := { c1 with pathArg := some paths }
  c2.step (snprintf_s 32768 MAX_PATH (scriptText inst.basePath)) fun script =>
  let args0 := (((List.replicate 32 none).set 0 (some [])).set 1 (some "-I".toList)).set 2
    (some script)
  c2.step (forwardArgs 1 (argv.drop 1) args0) fun args =>
  match pymain with
  | none => { calls := c2, exit := .error .nullCall }
  | some f =>
    { calls := { c2 with pyMainArgs := some (3 + (argc - 1), args),
                         runtimeResult := some (f (3 + (argc - 1)) args) },
      exit := .ok 0 }

/-- The launcher's `main`. -/
def main (env : Env) (argv : List CStr) : Outcome :=
  match install env with
  | .error e =>
    { calls := { fs := none, homeArg := none, pathArg := none, pyMainArgs := none,
                 runtimeResult := none },
      exit := .error e }
  | .ok inst => launch env inst argv

/-! ## The resource packer -/

/-- Output of `_splitpath_s`. -/
structure SplitPath where
  drive : CStr
  dir : CStr
  fname : CStr
  ext : CStr
  deriving DecidableEq, Repr

/-- A directory separator for `_splitpath_s`. -/
def isSep (c : Char) : Bool := c == '/' || c == BSL

/-- The part of a path after its last separator. -/
def afterLastSep : CStr → CStr
  | [] => []
  | c :: cs => if cs.any isSep then afterLastSep cs else if isSep c then cs else c :: cs

/-- A file name cut at its last dot: the base name, and the extension with its dot. -/
def splitExt : CStr → CStr × CStr
  | [] => ([], [])
  | c :: cs =>
    if cs.contains '.' then ((c :: (splitExt cs).1), (splitExt cs).2)
    else if c == '.' then ([], c :: cs)
    else (c :: cs, [])

/-- The call `_splitpath_s(path, drive, _MAX_DRIVE, dir, _MAX_DIR, fname, _MAX_FNAME,
ext, _MAX_EXT)`: a component that does not fit its buffer (256 characters with
the NUL) empties all four. -/
def splitpath_s (path : CStr) : SplitPath :=
  let hasDrive := path.get? 1 == some ':'
  let drive := if hasDrive then path.take 2 else []
  let rest := if hasDrive then path.drop 2 else path
  let file := afterLastSep rest
  let dir := rest.take (rest.length - file.length)
  let fe := splitExt file
  if dir.length < 256 ∧ fe.1.length < 256 ∧ fe.2.length < 256 then
    { drive := drive, dir := dir, fname := fe.1, ext := fe.2 }
  else { drive := [], dir := [], fname := [], ext := [] }

/-- The C predicate `isspace` in the "C" locale. -/
def isspace (c : Char) : Bool := c == ' ' || (9 ≤ c.toNat && c.toNat ≤ 13)

/-- The digits read by `atoi`, accumulated from the left until the first non-digit. -/
def atoiDigits : Nat → CStr → Nat
  | acc, [] => acc
  | acc, c :: cs => if c.isDigit then atoiDigits (acc * 10 + (c.toNat - 48)) cs else acc

/-- The C function `atoi`: leading white space, an optional sign, digits; a value
out of the range of `int` is clamped. -/
def atoi (s : CStr) : Int :=
  match s.dropWhile isspace with
  | [] => 0
  | c :: cs =>
    if c == '-' then max (-(2147483648 : Int)) (-(atoiDigits 0 cs : Int))
    else if c == '+' then min (2147483647 : Int) (atoiDigits 0 cs)
    else min (2147483647 : Int) (atoiDigits 0 (c :: cs))

/-- The cast `MAKEINTRESOURCE(i)`: the integer as a `WORD`. -/
def MAKEINTRESOURCE (i : Int) : Nat := (i % 65536).toNat

/-- An icon group as the packer reads it: its blob and the `nID` of each of its
`idCount` entries. -/
structure IconGroup where
  blob : List Char
  ids : List Nat

/-- The resource section of the target executable, by resource type. -/
structure Target where
  groupIcon : Nat → Option (List Char)
  icon : Nat → Option (List Char)
  rcdata : Nat → Option (List Char)

/-- Everything the packer reads from its surroundings. -/
structure PackEnv where
  /-- The constant `IDI_STANDARD` of `resource.h`. -/
  IDI_STANDARD : Nat
  /-- The constant `IDI_DEBUG` of `resource.h`. -/
  IDI_DEBUG : Nat
  /-- The `RT_GROUP_ICON` resources of the packer's own image. -/
  ownGroups : Nat → Option IconGroup
  /-- The `RT_ICON` resources of the packer's own image. -/
  ownIcons : Nat → Option (List Char)
  /-- The files that can be opened for reading. -/
  files : Path → Option (List Char)
  /-- The executables `BeginUpdateResource` can open, with their resources. -/
  targets : Path → Option Target

/-- The map `m` with `k` bound to `v`. -/
def update (m : Nat → Option (List Char)) (k : Nat) (v : Option (List Char)) :
    Nat → Option (List Char) :=
  fun j => if j = k then v else m j

/-- The call `UpdateResource(h, RT_ICON, MAKEINTRESOURCE(id), lang, data, size)`:
`NULL` data deletes the entry; a `NULL` handle changes nothing. -/
def UpdateResource_icon (h : Option Target) (id : Nat) (data : Option (List Char)) :
    Option Target :=
  h.map (fun t => { t with icon := update t.icon (id % 65536) data })

/-- The call `UpdateResource(h, RT_GROUP_ICON, ...)`. -/
def UpdateResource_groupIcon (h : Option Target) (id : Nat) (data : Option (List Char)) :
    Option Target :=
  h.map (fun t => { t with groupIcon := update t.groupIcon (id % 65536) data })

/-- The call `UpdateResource(h, RT_RCDATA, name, lang, buffer, size)` with an
integer name. -/
def UpdateResource_rcdata (h : Option Target) (name : Nat) (data : List Char) :
    Option Target :=
  h.map (fun t => { t with rcdata := update t.rcdata name (some data) })

/-- The loop of lines 70-83 of the packer over the entries of the icon group. -/
def iconLoop (env : PackEnv) : List Nat → Option Target → Option Target
  | [], h => h
  | nID :: rest, h => iconLoop env rest (UpdateResource_icon h nID (env.ownIcons (nID % 65536)))

/-- The loop of lines 85-111 of the packer over `argv[3..]`. -/
def payloadLoop (env : PackEnv) : List CStr → Option Target → Except Fault (Option Target)
  | [], h => .ok h
  | a :: rest, h =>
    match env.files a with
    | none => .error .allocation
    | some content =>
      let fileSize := content.length % 4294967296
      let buffer := content.take fileSize
      let fname := (splitpath_s a).fname
      payloadLoop env rest (UpdateResource_rcdata h (MAKEINTRESOURCE (atoi fname)) buffer)

/-- The packer's `main`: the resources of the target executable after
`EndUpdateResource` (`none` when the target could not be opened). -/
def packerMain (env : PackEnv) (argv : List CStr) : Except Fault (Option Target) := do
  let iconChoice ←
    match argv.get? 1 with
    | none => .error .nullRead
    | some a => .ok (if a = "debug".toList then env.IDI_DEBUG else env.IDI_STANDARD)
  let pyIconGroup := env.ownGroups (iconChoice % 65536)
  let hUpdateRes := (argv.get? 2).bind env.targets
  let h1 := UpdateResource_groupIcon hUpdateRes 101 (pyIconGroup.map (fun g => g.blob))
  let ids ←
    match pyIconGroup with
    | none => .error .nullRead
    | some g => .ok g.ids
  let h2 := iconLoop env ids h1
  payloadLoop env (argv.drop 3) h2


/-! ## Specification vocabulary -/

/-- The path `dir\name` built by `"%s\\%s"`. -/
def filePath (dir name : CStr) : Path := dir ++ [BSL] ++ name

/-- The file name a name resource yields (empty when `resString` faults). -/
def nameOf (res : Resources) (slot : Nat) : CStr :=
  match resString (res slot) with
  | .ok s => s
  | .error _ => []

/-- The bytes `WriteFile` is handed for a data resource: all of the blob, as
many as `SizeofResource` reports, none for an absent resource. -/
def dataOf (res : Resources) (slot : Nat) : List Char := (res slot).getD []

/-- The name resource `slot` is well formed and `dir\name` fits `_MAX_PATH`. -/
def nameFits (res : Resources) (slot : Nat) (dir : CStr) : Bool :=
  match resString (res slot) with
  | .ok s => decide ((filePath dir s).length < MAX_PATH)
  | .error _ => false

/-- The net effect of one extraction on the file system: the file at `p` holds
`data`, unless the path is refused or names a directory. -/
def writeTo (deny : Deny) (fs : FS) (p : Path) (data : List Char) : FS :=
  if deny p || check_if_directory_exists fs p then fs else fs.set p (some (.file data))

/-- The five (name slot, data slot) pairs of the application-level files, in
the order `main` writes them. -/
def applicationSlots : List (Nat × Nat) :=
  [(MAIN_FILE_NAME_LOCATION, MAIN_FILE_DATA_LOCATION),
   (LIB_NAME_LOCATION, LIB_FILE_LOCATION),
   (PROGRAM_NAME_LOCATION, PROGRAM_FILE_LOCATION),
   (PY_RESOURCE_ZIP_NAME_LOCATION, PY_RESOURCE_ZIP_LOCATION),
   (PY_RESOURCE_HASH_NAME_LOCATION, PY_RESOURCE_HASH_LOCATION)]

/-- The effect of `n` iterations of the runtime loop from index `i` on. -/
def loopEffect (res : Resources) (deny : Deny) (pythonHome : CStr) : Nat → Nat → FS → FS
  | 0, _, fs => fs
  | n + 1, i, fs =>
    loopEffect res deny pythonHome n (i + 1)
      (writeTo deny fs (filePath pythonHome (nameOf res (PY_RESOURCE_NAMES_START_LOCATION + i)))
        (dataOf res (PY_RESOURCE_FILES_START_LOCATION + i)))

/-- Every name resource of the `n` runtime files from index `i` on is well
formed and fits under `pythonHome`. -/
def runtimeNamesFit (res : Resources) (pythonHome : CStr) (i n : Nat) : Prop :=
  ∀ k, k < n → nameFits res (PY_RESOURCE_NAMES_START_LOCATION + (i + k)) pythonHome = true

instance (res : Resources) (pythonHome : CStr) (i n : Nat) :
    Decidable (runtimeNamesFit res pythonHome i n) := by
  unfold runtimeNamesFit; infer_instance

/-- A name or version resource that `resString` accepts. -/
def nameOK (res : Resources) (slot : Nat) : Bool :=
  match resString (res slot) with
  | .ok _ => true
  | .error _ => false

/-- The count byte, `0` when it cannot be read. -/
def countOf (res : Resources) : Nat :=
  match readCount (res PY_RESOURCE_COUNT_LOCATION) with
  | .ok c => c
  | .error _ => 0

/-- The count resource is present and not empty. -/
def countOK (res : Resources) : Bool :=
  match readCount (res PY_RESOURCE_COUNT_LOCATION) with
  | .ok _ => true
  | .error _ => false

/-- The text of `basePath` (line 155). -/
def basePathText (env : Env) : CStr :=
  appPathText env.appPath ++ [BSL] ++ "stationexec".toList

/-- The text of `pythonHome` (line 156). -/
def pythonHomeText (env : Env) : CStr :=
  appPathText env.appPath ++ [BSL] ++ "stationexec".toList ++ [BSL] ++
    nameOf env.res PYTHON_LONG_VERSION_LOCATION

/-- The effect of lines 159-163: both directories created when absent. -/
def directoriesEffect (env : Env) : FS :=
  let fs1 :=
    if !check_if_directory_exists env.fs (basePathText env) then
      CreateDirectory env.deny env.fs (basePathText env)
    else env.fs
  if !check_if_directory_exists fs1 (pythonHomeText env) then
    CreateDirectory env.deny fs1 (pythonHomeText env)
  else fs1

/-- The effect of the five application-file extractions. -/
def applicationEffect (res : Resources) (deny : Deny) (base : CStr) (fs : FS) : FS :=
  writeTo deny (writeTo deny (writeTo deny (writeTo deny (writeTo deny fs
    (filePath base (nameOf res MAIN_FILE_NAME_LOCATION)) (dataOf res MAIN_FILE_DATA_LOCATION))
    (filePath base (nameOf res LIB_NAME_LOCATION)) (dataOf res LIB_FILE_LOCATION))
    (filePath base (nameOf res PROGRAM_NAME_LOCATION)) (dataOf res PROGRAM_FILE_LOCATION))
    (filePath base (nameOf res PY_RESOURCE_ZIP_NAME_LOCATION))
      (dataOf res PY_RESOURCE_ZIP_LOCATION))
    (filePath base (nameOf res PY_RESOURCE_HASH_NAME_LOCATION))
      (dataOf res PY_RESOURCE_HASH_LOCATION)

/-- What `install` returns when it reaches its end. -/
def installed (env : Env) : Installed :=
  { pyVersionName := nameOf env.res PYTHON_VERSION_LOCATION
    pyVersionNameLong := nameOf env.res PYTHON_LONG_VERSION_LOCATION
    basePath := basePathText env
    pythonHome := pythonHomeText env
    fs := applicationEffect env.res env.deny (basePathText env)
      (loopEffect env.res env.deny (pythonHomeText env) (countOf env.res) 0
        (directoriesEffect env)) }

/-- The conditions under which `install` reaches its end: both version
strings, the count byte and every file name can be read, and every path built
fits `_MAX_PATH`.  Nothing here depends on the file system. -/
def InstallOK (env : Env) : Prop :=
  nameOK env.res PYTHON_VERSION_LOCATION = true ∧
  nameOK env.res PYTHON_LONG_VERSION_LOCATION = true ∧
  (basePathText env).length < MAX_PATH ∧
  (pythonHomeText env).length < MAX_PATH ∧
  countOK env.res = true ∧
  runtimeNamesFit env.res (pythonHomeText env) 0 (countOf env.res) ∧
  ∀ s ∈ applicationSlots, nameFits env.res s.1 (basePathText env) = true

instance (env : Env) : Decidable (InstallOK env) := by
  unfold InstallOK; infer_instance

/-- The library handle exports all three entry points. -/
def exportsOK (dll : Option Runtime) : Bool :=
  match dll with
  | none => false
  | some rt => rt.Py_Main.isSome && rt.Py_SetPythonHome && rt.Py_SetPath

/-- The argument loop stays inside `clargs` and `args`: every forwarded
argument is shorter than `_MAX_PATH` and the last index stored is below 32. -/
def ArgsOK (i : Nat) (rest : List CStr) : Prop :=
  (∀ a ∈ rest, a.length < MAX_PATH) ∧ (rest ≠ [] → i + rest.length ≤ 30)

instance (i : Nat) (rest : List CStr) : Decidable (ArgsOK i rest) := by
  unfold ArgsOK; infer_instance

/-- The conditions under which `launch` reaches the runtime's main entry. -/
def LaunchOK (env : Env) (inst : Installed) (argv : List CStr) : Prop :=
  (pythonDLLText inst).length < MAX_PATH ∧
  exportsOK (env.loadLibrary inst.fs (pythonDLLText inst)) = true ∧
  ArgsOK 1 (argv.drop 1)

instance (env : Env) (inst : Installed) (argv : List CStr) :
    Decidable (LaunchOK env inst argv) := by
  unfold LaunchOK; infer_instance

/-- The effect of the argument loop on `args`. -/
def storeArgs : Nat → List CStr → List (Option WStr) → List (Option WStr)
  | _, [], args => args
  | i, a :: rest, args => storeArgs (i + 1) rest (args.set (2 + i) (some (widen a)))

/-- The array `args` before the argument loop (lines 226-230). -/
def initialArgs (basePath : CStr) : List (Option WStr) :=
  (((List.replicate 32 none).set 0 (some [])).set 1 (some "-I".toList)).set 2
    (some ((scriptText basePath).take MAX_PATH))

/-- Cut of a text at each semicolon. -/
def splitSemicolon : List Char → List (List Char)
  | [] => [[]]
  | c :: cs =>
    if c = ';' then [] :: splitSemicolon cs
    else match splitSemicolon cs with
      | [] => [[c]]
      | seg :: segs => (c :: seg) :: segs

/-- The library handle exports the two configuration entry points. -/
def configExportsOK (dll : Option Runtime) : Bool :=
  match dll with
  | none => false
  | some rt => rt.Py_SetPythonHome && rt.Py_SetPath

/-- The conditions under which `launch` reaches the call of `Py_SetPath`. -/
def ConfigOK (env : Env) (inst : Installed) : Prop :=
  (pythonDLLText inst).length < MAX_PATH ∧
  configExportsOK (env.loadLibrary inst.fs (pythonDLLText inst)) = true

instance (env : Env) (inst : Installed) : Decidable (ConfigOK env inst) := by
  unfold ConfigOK; infer_instance

/-- The calls of a launch that reaches the runtime, whose main entry is `f`. -/
def launchCalls (inst : Installed) (argv : List CStr) (f : Int → List (Option WStr) → Int) :
    Calls :=
  { fs := some inst.fs
    homeArg := some (widen inst.basePath ++ [BSL] ++ widen inst.pyVersionNameLong)
    pathArg := some (searchPathText inst.basePath inst.pyVersionNameLong inst.pyVersionName)
    pyMainArgs := some (3 + ((argv.length : Int) - 1),
      storeArgs 1 (argv.drop 1) (initialArgs inst.basePath))
    runtimeResult := some (f (3 + ((argv.length : Int) - 1))
      (storeArgs 1 (argv.drop 1) (initialArgs inst.basePath))) }

/-! ## Sample inputs -/

/-- A small resource set: versions `py36` / `py363_64`, one runtime file, the
five application files. -/
def sampleRes : Resources := fun n =>
  if n = 34 then some "py36".toList
  else if n = 35 then some "py363_64".toList
  else if n = 36 then some "launch.py".toList
  else if n = 37 then some "print(1)".toList
  else if n = 38 then some "lib.zip".toList
  else if n = 39 then some "LIB".toList
  else if n = 42 then some "app.zip".toList
  else if n = 43 then some "APP".toList
  else if n = 46 then some "py.hash".toList
  else if n = 47 then some "HASH".toList
  else if n = 48 then some "py.zip".toList
  else if n = 49 then some "ZIP".toList
  else if n = 50 then some [Char.ofNat 1]
  else if n = 51 then some "DLL".toList
  else if n = 151 then some "py36.dll".toList
  else none

/-- An empty file system. -/
def emptyFS : FS := fun _ => none

/-- An operating system that refuses nothing. -/
def allowAll : Deny := fun _ => false

/-- A file system in which the runtime library is already installed with
other bytes. -/
def installedFS : FS :=
  emptyFS.set "H\\py36.dll".toList (some (.file "OLD".toList))

/-- A runtime whose main entry returns its argument count plus four. -/
def sampleRuntime : Runtime :=
  { Py_Main := some (fun n _ => n + 4), Py_SetPythonHome := true, Py_SetPath := true }

/-- A loader that finds the sample runtime wherever a file exists. -/
def sampleLoader : FS → Path → Option Runtime := fun fs p =>
  match fs p with
  | some (.file _) => some sampleRuntime
  | _ => none

/-- A first launch: sample resources, empty file system, nothing refused. -/
def sampleEnv : Env :=
  { res := sampleRes, appPath := some "C:\\L".toList, deny := allowAll, fs := emptyFS,
    loadLibrary := sampleLoader }

/-- The resource ID the packer derives from a payload path. -/
def idOf (a : CStr) : Nat := MAKEINTRESOURCE (atoi (splitpath_s a).fname)

/-- The bytes the packer reads from a file: `GetFileSize` reports the low 32
bits of the length, and `ReadFile` reads that many. -/
def bufferOf (content : List Char) : List Char :=
  content.take (content.length % 4294967296)

/-- The icon the packer selects (lines 51-53), `IDI_STANDARD` without `argv[1]`. -/
def iconChoiceOf (env : PackEnv) (argv : List CStr) : Nat :=
  match argv.get? 1 with
  | some a => if a = "debug".toList then env.IDI_DEBUG else env.IDI_STANDARD
  | none => env.IDI_STANDARD

/-- A target executable without resources. -/
def blankTarget : Target :=
  { groupIcon := (fun _ => none), icon := (fun _ => none), rcdata := (fun _ => none) }

/-- A packer run: one icon group with one image, two payload files that both
have the base name `42`, one that has the base name `37`. -/
def samplePackEnv : PackEnv :=
  { IDI_STANDARD := 101
    IDI_DEBUG := 102
    ownGroups := (fun n => if n = 101 then some { blob := "GRP".toList, ids := [1] } else none)
    ownIcons := (fun n => if n = 1 then some "ICO".toList else none)
    files := (fun p =>
      if p = "a\\42.bin".toList then some "AAA".toList
      else if p = "b\\42.txt".toList then some "BBB".toList
      else if p = "C:\\out\\37.py".toList then some "print(1)".toList
      else none)
    targets := (fun p => if p = "t.exe".toList then some blankTarget else none) }

/-! ## Lemmas on the formatter and on one extraction -/

theorem snprintf_s_fits {n : Nat} {out : List Char} (h : out.length < n) :
    snprintf_s n n out = .ok out := by
  simp [snprintf_s, h]

theorem snprintf_s_ok_length {size count : Nat} {out s : List Char}
    (h : snprintf_s size count out = .ok s) : s.length < size := by
  unfold snprintf_s at h
  split at h
  · cases h
    rename_i hc
    have := List.length_take_le count out
    omega
  · split at h
    · cases h; assumption
    · cases h

theorem resString_length {r : Option (List Char)} {s : CStr} (h : resString r = .ok s) :
    s.length < 256 := by
  unfold resString at h
  split at h
  · cases h
  · simp only at h
    split at h
    · cases h
    · exact snprintf_s_ok_length h

theorem FS.set_same (fs : FS) (p : Path) (n : Option Node) : fs.set p n p = n := by
  simp [FS.set]

theorem FS.set_other (fs : FS) {p q : Path} (n : Option Node) (h : q ≠ p) :
    fs.set p n q = fs q := by
  simp [FS.set, h]

theorem FS.set_set (fs : FS) (p : Path) (a b : Option Node) :
    (fs.set p a).set p b = fs.set p b := by
  funext q
  by_cases h : q = p <;> simp [FS.set, h]

/-- One extraction, whatever `delete_existing`, comes down to `writeTo`. -/
theorem fileStep_eq (deny : Deny) (fs : FS) (p : Path) (data : List Char) (del : Bool) :
    WriteFile
      (CreateFile_always deny
        (if check_if_file_exists fs p then (if del then DeleteFileA deny fs p else fs) else fs)
        p).2
      (CreateFile_always deny
        (if check_if_file_exists fs p then (if del then DeleteFileA deny fs p else fs) else fs)
        p).1
      data data.length = writeTo deny fs p data := by
  unfold writeTo check_if_directory_exists check_if_file_exists CreateFile_always DeleteFileA
    WriteFile
  cases hd : deny p <;> cases del <;> rcases hn : fs p with _ | ⟨c⟩ | _ <;>
    simp [hn, FS.set_set, FS.set_same]

theorem create_and_write_ok {res : Resources} {slot : Nat} {dir : CStr}
    (h : nameFits res slot dir = true) (deny : Deny) (dslot : Nat) (del : Bool) (fs : FS) :
    create_and_write_file_from_res res deny slot dslot dir del fs =
      .ok (writeTo deny fs (filePath dir (nameOf res slot)) (dataOf res dslot)) := by
  unfold nameFits at h
  unfold create_and_write_file_from_res nameOf dataOf
  cases hr : resString (res slot) with
  | error e => simp [hr] at h
  | ok s =>
    simp only [hr, decide_eq_true_eq] at h
    have hfit : snprintf_s MAX_PATH MAX_PATH (dir ++ [BSL] ++ s) = .ok (filePath dir s) :=
      snprintf_s_fits h
    simp only [bind, Except.bind, hfit, pure, Except.pure]
    congr 1
    have := fileStep_eq deny fs (filePath dir s) ((res dslot).getD []) del
    cases hres : res dslot <;> simpa [hres] using this

theorem extractLoop_ok (res : Resources) (deny : Deny) (home : CStr) :
    ∀ (n i : Nat) (fs : FS), runtimeNamesFit res home i n →
      extractLoop res deny home n i fs = .ok (loopEffect res deny home n i fs)
  | 0, _, _, _ => rfl
  | n + 1, i, fs, h => by
    have h0 : nameFits res (PY_RESOURCE_NAMES_START_LOCATION + i) home = true := by
      simpa using h 0 (Nat.succ_pos n)
    have hrest : runtimeNamesFit res home (i + 1) n := by
      intro k hk
      have := h (k + 1) (Nat.succ_lt_succ hk)
      simpa [Nat.add_assoc, Nat.add_comm 1 k] using this
    simp only [extractLoop, loopEffect, bind, Except.bind,
      create_and_write_ok h0 deny _ false fs]
    exact extractLoop_ok res deny home n (i + 1) _ hrest

/-- One `writeTo` seen at a single path `q`: either it leaves the node alone,
or it keeps a directory and puts a fixed file over anything else. -/
theorem writeTo_pointwise (deny : Deny) (p : Path) (data : List Char) (q : Path) :
    (∀ fs : FS, writeTo deny fs p data q = fs q) ∨
    (∀ fs : FS, writeTo deny fs p data q =
      if fs q = some .dir then some .dir else some (.file data)) := by
  by_cases hq : q = p
  · subst hq
    cases hd : deny q
    · right
      intro fs
      unfold writeTo check_if_directory_exists
      rcases hn : fs q with _ | ⟨c⟩ | _ <;> simp [hd, hn, FS.set_same]
    · left
      intro fs
      simp [writeTo, hd]
  · left
    intro fs
    unfold writeTo
    split
    · rfl
    · exact FS.set_other fs _ hq

/-- The whole loop seen at a single path: the same two shapes. -/
theorem loopEffect_pointwise (res : Resources) (deny : Deny) (home : CStr) (q : Path) :
    ∀ (n i : Nat),
      (∀ fs : FS, loopEffect res deny home n i fs q = fs q) ∨
      (∃ data, ∀ fs : FS, loopEffect res deny home n i fs q =
        if fs q = some .dir then some .dir else some (.file data))
  | 0, _ => Or.inl (fun _ => rfl)
  | n + 1, i => by
    have hstep := writeTo_pointwise deny
      (filePath home (nameOf res (PY_RESOURCE_NAMES_START_LOCATION + i)))
      (dataOf res (PY_RESOURCE_FILES_START_LOCATION + i)) q
    rcases loopEffect_pointwise res deny home q n (i + 1) with hrest | ⟨d, hrest⟩
    · rcases hstep with h1 | h1
      · left; intro fs; simp only [loopEffect, hrest, h1]
      · right
        exact ⟨dataOf res (PY_RESOURCE_FILES_START_LOCATION + i), fun fs => by
          simp only [loopEffect, hrest, h1]⟩
    · right
      refine ⟨d, fun fs => ?_⟩
      simp only [loopEffect, hrest]
      rcases hstep with h1 | h1
      · rw [h1]
      · rw [h1]
        by_cases hdir : fs q = some .dir <;> simp [hdir]

theorem loopEffect_idem (res : Resources) (deny : Deny) (home : CStr) (n i : Nat) (fs : FS) :
    loopEffect res deny home n i (loopEffect res deny home n i fs) =
      loopEffect res deny home n i fs := by
  funext q
  rcases loopEffect_pointwise res deny home q n i with h | ⟨d, h⟩
  · rw [h, h]
  · rw [h (loopEffect res deny home n i fs), h fs]
    by_cases hdir : fs q = some .dir <;> simp [hdir]


theorem applicationFiles_ok (res : Resources) (deny : Deny) (base : CStr) (fs : FS)
    (hfit : ∀ s ∈ applicationSlots, nameFits res s.1 base = true) :
    applicationFiles res deny base fs = .ok (applicationEffect res deny base fs) := by
  have h1 := hfit (MAIN_FILE_NAME_LOCATION, MAIN_FILE_DATA_LOCATION) (by simp [applicationSlots])
  have h2 := hfit (LIB_NAME_LOCATION, LIB_FILE_LOCATION) (by simp [applicationSlots])
  have h3 := hfit (PROGRAM_NAME_LOCATION, PROGRAM_FILE_LOCATION) (by simp [applicationSlots])
  have h4 := hfit (PY_RESOURCE_ZIP_NAME_LOCATION, PY_RESOURCE_ZIP_LOCATION)
    (by simp [applicationSlots])
  have h5 := hfit (PY_RESOURCE_HASH_NAME_LOCATION, PY_RESOURCE_HASH_LOCATION)
    (by simp [applicationSlots])
  simp only [applicationFiles, applicationEffect, bind, Except.bind, create_and_write_ok h1,
    create_and_write_ok h2, create_and_write_ok h3, create_and_write_ok h4,
    create_and_write_ok h5]

theorem resString_of_nameOK {res : Resources} {slot : Nat} (h : nameOK res slot = true) :
    resString (res slot) = .ok (nameOf res slot) := by
  unfold nameOK at h
  unfold nameOf
  cases hr : resString (res slot) with
  | error e => simp [hr] at h
  | ok v => rfl

theorem nameOf_length (res : Resources) (slot : Nat) : (nameOf res slot).length < 256 := by
  unfold nameOf
  cases hr : resString (res slot) with
  | error e => simp
  | ok v => exact resString_length hr

theorem readCount_of_countOK {res : Resources} (h : countOK res = true) :
    readCount (res PY_RESOURCE_COUNT_LOCATION) = .ok (countOf res) := by
  unfold countOK at h
  unfold countOf
  cases hr : readCount (res PY_RESOURCE_COUNT_LOCATION) with
  | error e => simp [hr] at h
  | ok v => rfl

theorem install_ok (env : Env) (h : InstallOK env) : install env = .ok (installed env) := by
  obtain ⟨h1, h2, h3, h4, h5, h6, h7⟩ := h
  have e3 : snprintf_s MAX_PATH MAX_PATH
      (appPathText env.appPath ++ [BSL] ++ "stationexec".toList) = .ok (basePathText env) :=
    snprintf_s_fits h3
  have e4 : snprintf_s MAX_PATH MAX_PATH
      (appPathText env.appPath ++ [BSL] ++ "stationexec".toList ++ [BSL] ++
        nameOf env.res PYTHON_LONG_VERSION_LOCATION) = .ok (pythonHomeText env) :=
    snprintf_s_fits h4
  simp only [install, bind, Except.bind, resString_of_nameOK h1, resString_of_nameOK h2, e3, e4,
    runtimeExtraction, readCount_of_countOK h5, extractLoop_ok _ _ _ _ _ _ h6,
    applicationFiles_ok _ _ _ _ h7, pure, Except.pure]
  rfl

theorem forwardArgs_ok : ∀ (rest : List CStr) (i : Nat) (args : List (Option WStr)),
    ArgsOK i rest → forwardArgs i rest args = .ok (storeArgs i rest args)
  | [], _, _, _ => rfl
  | a :: rest, i, args, h => by
    obtain ⟨hlen, hidx⟩ := h
    have hi : i + (rest.length + 1) ≤ 30 := by simpa using hidx (by simp)
    have ha : a.length < MAX_PATH := hlen a (by simp)
    have e1 : indexInto 32 i = .ok () := by unfold indexInto; rw [if_pos (by omega)]
    have e2 : indexInto 32 (2 + i) = .ok () := by unfold indexInto; rw [if_pos (by omega)]
    have e3 : snprintf_s MAX_PATH MAX_PATH (widen a) = .ok (widen a) := snprintf_s_fits ha
    have hrest : ArgsOK (i + 1) rest :=
      ⟨fun b hb => hlen b (List.mem_cons_of_mem a hb), fun _ => by omega⟩
    simp only [forwardArgs, storeArgs, bind, Except.bind, e1, e2, e3]
    exact forwardArgs_ok rest (i + 1) _ hrest

theorem storeArgs_length : ∀ (rest : List CStr) (i : Nat) (args : List (Option WStr)),
    (storeArgs i rest args).length = args.length
  | [], _, _ => rfl
  | a :: rest, i, args => by
    simp only [storeArgs]
    rw [storeArgs_length rest (i + 1), List.length_set]

theorem exportsOK_some {dll : Option Runtime} (h : exportsOK dll = true) :
    ∃ rt f, dll = some rt ∧ rt.Py_Main = some f ∧ rt.Py_SetPythonHome = true ∧
      rt.Py_SetPath = true := by
  unfold exportsOK at h
  cases dll with
  | none => simp at h
  | some rt =>
    simp only [Bool.and_eq_true] at h
    obtain ⟨⟨hm, hh⟩, hp⟩ := h
    cases hf : rt.Py_Main with
    | none => simp [hf] at hm
    | some f => exact ⟨rt, f, rfl, hf, hh, hp⟩

theorem searchPathText_length (base long short : CStr) :
    (searchPathText base long short).length =
      4 * base.length + 2 * long.length + short.length + 18 := by
  simp only [searchPathText, widen, List.length_append, List.length_cons, List.length_nil,
    String.toList]
  omega

theorem configExportsOK_some {dll : Option Runtime} (h : configExportsOK dll = true) :
    ∃ rt, dll = some rt ∧ rt.Py_SetPythonHome = true ∧ rt.Py_SetPath = true := by
  unfold configExportsOK at h
  cases dll with
  | none => simp at h
  | some rt =>
    simp only [Bool.and_eq_true] at h
    exact ⟨rt, rfl, h.1, h.2⟩

theorem snprintf_s_home (inst : Installed) (hb : inst.basePath.length < MAX_PATH)
    (hl : inst.pyVersionNameLong.length < 256) :
    snprintf_s 32768 32768 (widen inst.basePath ++ [BSL] ++ widen inst.pyVersionNameLong)
      = .ok (widen inst.basePath ++ [BSL] ++ widen inst.pyVersionNameLong) := by
  have hmp : MAX_PATH = 260 := rfl
  apply snprintf_s_fits
  simp only [widen, List.length_append, List.length_cons, List.length_nil]
  omega

theorem snprintf_s_paths (inst : Installed) (hb : inst.basePath.length < MAX_PATH)
    (hl : inst.pyVersionNameLong.length < 256) (hs : inst.pyVersionName.length < 256) :
    snprintf_s 32768 32768
      (searchPathText inst.basePath inst.pyVersionNameLong inst.pyVersionName)
      = .ok (searchPathText inst.basePath inst.pyVersionNameLong inst.pyVersionName) := by
  have hmp : MAX_PATH = 260 := rfl
  apply snprintf_s_fits
  rw [searchPathText_length]
  omega

theorem snprintf_s_script (base : CStr) :
    snprintf_s 32768 MAX_PATH (scriptText base) = .ok ((scriptText base).take MAX_PATH) := by
  unfold snprintf_s
  rw [if_pos (by decide)]

theorem launch_ok (env : Env) (inst : Installed) (argv : List CStr)
    (hb : inst.basePath.length < MAX_PATH) (hl : inst.pyVersionNameLong.length < 256)
    (hs : inst.pyVersionName.length < 256) (h : LaunchOK env inst argv) :
    ∃ rt f, env.loadLibrary inst.fs (pythonDLLText inst) = some rt ∧ rt.Py_Main = some f ∧
      launch env inst argv = { calls := launchCalls inst argv f, exit := .ok 0 } := by
  obtain ⟨hdll, hexp, hargs⟩ := h
  obtain ⟨rt, f, hload, hmain, hhome, hpath⟩ := exportsOK_some hexp
  refine ⟨rt, f, hload, hmain, ?_⟩
  have e1 : snprintf_s MAX_PATH MAX_PATH (pythonDLLText inst) = .ok (pythonDLLText inst) :=
    snprintf_s_fits hdll
  have e5 : callThrough true = .ok () := rfl
  have e6 := forwardArgs_ok (argv.drop 1) 1 (initialArgs inst.basePath) hargs
  unfold initialArgs at e6
  simp only [launch, Calls.step, e1, hload, Option.map_some', Option.getD_some, hhome, hpath,
    snprintf_s_home inst hb hl, snprintf_s_paths inst hb hl hs, snprintf_s_script, e5,
    Option.some_bind, hmain, e6]
  rfl

/-- Once the library has loaded with both configuration entry points, the
search path is handed over, whatever happens afterwards. -/
theorem launch_config (env : Env) (inst : Installed) (argv : List CStr)
    (hb : inst.basePath.length < MAX_PATH) (hl : inst.pyVersionNameLong.length < 256)
    (hs : inst.pyVersionName.length < 256) (h : ConfigOK env inst) :
    (launch env inst argv).calls.pathArg =
      some (searchPathText inst.basePath inst.pyVersionNameLong inst.pyVersionName) := by
  obtain ⟨hdll, hexp⟩ := h
  obtain ⟨rt, hload, hhome, hpath⟩ := configExportsOK_some hexp
  have e1 : snprintf_s MAX_PATH MAX_PATH (pythonDLLText inst) = .ok (pythonDLLText inst) :=
    snprintf_s_fits hdll
  have e5 : callThrough true = .ok () := rfl
  simp only [launch, Calls.step, e1, hload, Option.map_some', Option.getD_some, hhome, hpath,
    snprintf_s_home inst hb hl, snprintf_s_paths inst hb hl hs, snprintf_s_script, e5,
    Option.some_bind]
  cases forwardArgs 1 (argv.drop 1)
      ((((List.replicate 32 none).set 0 (some [])).set 1 (some "-I".toList)).set 2
        (some ((scriptText inst.basePath).take MAX_PATH))) with
  | error e => rfl
  | ok args =>
    cases rt.Py_Main with
    | none => rfl
    | some f => rfl

theorem main_ok (env : Env) (argv : List CStr) (h1 : InstallOK env)
    (h2 : LaunchOK env (installed env) argv) :
    ∃ rt f, env.loadLibrary (installed env).fs (pythonDLLText (installed env)) = some rt ∧
      rt.Py_Main = some f ∧
      main env argv = { calls := launchCalls (installed env) argv f, exit := .ok 0 } := by
  obtain ⟨rt, f, hload, hmain, hl⟩ := launch_ok env (installed env) argv h1.2.2.1
    (nameOf_length _ _) (nameOf_length _ _) h2
  exact ⟨rt, f, hload, hmain, by simp only [main, install_ok env h1, hl]⟩

theorem main_config (env : Env) (argv : List CStr) (h1 : InstallOK env)
    (h2 : ConfigOK env (installed env)) :
    (main env argv).calls.pathArg =
      some (searchPathText (basePathText env) (nameOf env.res PYTHON_LONG_VERSION_LOCATION)
        (nameOf env.res PYTHON_VERSION_LOCATION)) := by
  have := launch_config env (installed env) argv h1.2.2.1
    (nameOf_length _ _) (nameOf_length _ _) h2
  simp only [main, install_ok env h1]
  exact this

/-- C2, the code at the failing input: `pythonHome` already holds `py36.dll`
with the bytes `OLD`; the runtime extraction step (`delete_existing = false`)
replaces them by the bytes `DLL` of data slot 51. -/
theorem runtimeExtraction_overwrites :
    installedFS "H\\py36.dll".toList = some (.file "OLD".toList) ∧
    nameOf sampleRes (PY_RESOURCE_NAMES_START_LOCATION + 0) = "py36.dll".toList ∧
    (runtimeExtraction sampleRes allowAll "H".toList installedFS).toOption.map
      (fun fs1 => fs1 "H\\py36.dll".toList) = some (some (.file "DLL".toList)) := by
  decide

/-- C3: for a well-formed resource set (count byte present, every runtime name
resource well formed and fitting under `pythonHome`) and every starting file
system, the runtime extraction returns, and running it again on its result
returns the very same file system. -/
theorem runtimeExtraction_twice (res : Resources) (deny : Deny) (home : CStr) (fs : FS)
    (count : Nat) (hcount : readCount (res PY_RESOURCE_COUNT_LOCATION) = .ok count)
    (hwf : runtimeNamesFit res home 0 count) :
    ∃ fs1, runtimeExtraction res deny home fs = .ok fs1 ∧
      runtimeExtraction res deny home fs1 = .ok fs1 := by
  refine ⟨loopEffect res deny home count 0 fs, ?_, ?_⟩
  · simp only [runtimeExtraction, bind, Except.bind, hcount]
    exact extractLoop_ok res deny home count 0 fs hwf
  · simp only [runtimeExtraction, bind, Except.bind, hcount]
    rw [extractLoop_ok res deny home count 0 _ hwf, loopEffect_idem]

/-- Witness of `runtimeExtraction_twice`: the sample resources, one runtime file. -/
theorem runtimeExtraction_twice_witness :
    ∃ fs1, runtimeExtraction sampleRes allowAll "H".toList installedFS = .ok fs1 ∧
      runtimeExtraction sampleRes allowAll "H".toList fs1 = .ok fs1 :=
  runtimeExtraction_twice sampleRes allowAll "H".toList installedFS 1 rfl (by decide)

/-- C10: the data slots `51 + i` and name slots `151 + j` of `count` runtime
files are pairwise distinct and outside the fixed slots 34..50 exactly when
`count ≤ 100`; beyond that, the data slot of file `i ≥ 100` is the name slot of
file `i - 100`. -/
theorem runtime_slots_disjoint_iff (count : Nat) :
    (((∀ i j, i < count → j < count →
          PY_RESOURCE_FILES_START_LOCATION + i ≠ PY_RESOURCE_NAMES_START_LOCATION + j) ∧
        (∀ i j, i < count → j < count → i ≠ j →
          PY_RESOURCE_FILES_START_LOCATION + i ≠ PY_RESOURCE_FILES_START_LOCATION + j ∧
          PY_RESOURCE_NAMES_START_LOCATION + i ≠ PY_RESOURCE_NAMES_START_LOCATION + j) ∧
        (∀ i s, i < count → PYTHON_VERSION_LOCATION ≤ s → s ≤ PY_RESOURCE_COUNT_LOCATION →
          PY_RESOURCE_FILES_START_LOCATION + i ≠ s ∧ PY_RESOURCE_NAMES_START_LOCATION + i ≠ s))
      ↔ count ≤ 100) ∧
    (100 < count → ∀ i, 100 ≤ i → i < count →
      i - 100 < count ∧
      PY_RESOURCE_FILES_START_LOCATION + i = PY_RESOURCE_NAMES_START_LOCATION + (i - 100)) := by
  simp only [PY_RESOURCE_FILES_START_LOCATION, PY_RESOURCE_NAMES_START_LOCATION,
    PYTHON_VERSION_LOCATION, PY_RESOURCE_COUNT_LOCATION]
  refine ⟨⟨fun h => ?_, fun h => ⟨?_, ?_, ?_⟩⟩, ?_⟩
  · by_contra hc
    exact h.1 100 0 (by omega) (by omega) rfl
  · intro i j hi hj; omega
  · intro i j hi hj hij; omega
  · intro i s hi h1 h2; omega
  · intro hc i h1 h2; omega


/-! ## Claims on the launch -/

theorem splitSemicolon_plain : ∀ (a : List Char), ';' ∉ a → splitSemicolon a = [a]
  | [], _ => rfl
  | c :: cs, h => by
    have hc : c ≠ ';' := fun e => h (by simp [e])
    have hcs : ';' ∉ cs := fun e => h (List.mem_cons_of_mem c e)
    simp only [splitSemicolon, if_neg hc, splitSemicolon_plain cs hcs]

theorem splitSemicolon_append : ∀ (a b : List Char), ';' ∉ a →
    splitSemicolon (a ++ ';' :: b) = a :: splitSemicolon b
  | [], b, _ => by simp [splitSemicolon]
  | c :: cs, b, h => by
    have hc : c ≠ ';' := fun e => h (by simp [e])
    have hcs : ';' ∉ cs := fun e => h (List.mem_cons_of_mem c e)
    have ih := splitSemicolon_append cs b hcs
    show splitSemicolon (c :: (cs ++ ';' :: b)) = (c :: cs) :: splitSemicolon b
    rw [splitSemicolon, if_neg hc, ih]

/-- C4: for every launch whose `install` part succeeds and whose library loads
with the two configuration entry points, and whose `basePath` and two version
strings hold no semicolon, the string passed to `Py_SetPath` splits at its
semicolons into exactly four segments, in this order: `basePath`,
`basePath\long`, `basePath\long\short.zip`, `basePath\lib.zip`. -/
theorem searchPath_four_segments (env : Env) (argv : List CStr) (h1 : InstallOK env)
    (h2 : ConfigOK env (installed env))
    (hb : ';' ∉ basePathText env)
    (hl : ';' ∉ nameOf env.res PYTHON_LONG_VERSION_LOCATION)
    (hs : ';' ∉ nameOf env.res PYTHON_VERSION_LOCATION) :
    ∃ paths, (main env argv).calls.pathArg = some paths ∧
      splitSemicolon paths =
        [basePathText env,
         basePathText env ++ [BSL] ++ nameOf env.res PYTHON_LONG_VERSION_LOCATION,
         basePathText env ++ [BSL] ++ nameOf env.res PYTHON_LONG_VERSION_LOCATION ++ [BSL] ++
           nameOf env.res PYTHON_VERSION_LOCATION ++ ".zip".toList,
         basePathText env ++ [BSL] ++ "lib.zip".toList] := by
  refine ⟨_, main_config env argv h1 h2, ?_⟩
  generalize basePathText env = B at hb
  generalize nameOf env.res PYTHON_LONG_VERSION_LOCATION = L at hl
  generalize nameOf env.res PYTHON_VERSION_LOCATION = S at hs
  have hshape : searchPathText B L S =
      B ++ ';' :: ((B ++ [BSL] ++ L) ++ ';' :: ((B ++ [BSL] ++ L ++ [BSL] ++ S ++ ".zip".toList)
        ++ ';' :: (B ++ [BSL] ++ "lib.zip".toList))) := by
    simp [searchPathText, widen]
  have hbsl : BSL ≠ ';' := by decide
  have n2 : ';' ∉ B ++ [BSL] ++ L := by
    simp only [List.mem_append, List.mem_singleton, not_or]
    exact ⟨⟨hb, fun e => hbsl e.symm⟩, hl⟩
  have n3 : ';' ∉ B ++ [BSL] ++ L ++ [BSL] ++ S ++ ".zip".toList := by
    simp only [List.mem_append, List.mem_singleton, not_or]
    exact ⟨⟨⟨⟨⟨hb, fun e => hbsl e.symm⟩, hl⟩, fun e => hbsl e.symm⟩, hs⟩, by decide⟩
  have n4 : ';' ∉ B ++ [BSL] ++ "lib.zip".toList := by
    simp only [List.mem_append, List.mem_singleton, not_or]
    exact ⟨⟨hb, fun e => hbsl e.symm⟩, by decide⟩
  rw [hshape, splitSemicolon_append _ _ hb, splitSemicolon_append _ _ n2,
    splitSemicolon_append _ _ n3, splitSemicolon_plain _ n4]

/-- Witness of `searchPath_four_segments`: the sample launch. -/
theorem searchPath_four_segments_witness :
    ∃ paths, (main sampleEnv ["launcher".toList]).calls.pathArg = some paths ∧
      splitSemicolon paths =
        [basePathText sampleEnv,
         basePathText sampleEnv ++ [BSL] ++ nameOf sampleEnv.res PYTHON_LONG_VERSION_LOCATION,
         basePathText sampleEnv ++ [BSL] ++ nameOf sampleEnv.res PYTHON_LONG_VERSION_LOCATION ++
           [BSL] ++ nameOf sampleEnv.res PYTHON_VERSION_LOCATION ++ ".zip".toList,
         basePathText sampleEnv ++ [BSL] ++ "lib.zip".toList] :=
  searchPath_four_segments sampleEnv ["launcher".toList] (by decide) (by decide) (by decide)
    (by decide) (by decide)

/-- C7, as amended: for every launch that reaches the runtime, whatever
integer the runtime's main entry returns, the launcher's `main` returns `0`. -/
theorem main_returns_zero (env : Env) (argv : List CStr) (h1 : InstallOK env)
    (h2 : LaunchOK env (installed env) argv) :
    ∃ rt f n args,
      env.loadLibrary (installed env).fs (pythonDLLText (installed env)) = some rt ∧
      rt.Py_Main = some f ∧
      (main env argv).calls.pyMainArgs = some (n, args) ∧
      (main env argv).calls.runtimeResult = some (f n args) ∧
      (main env argv).exit = .ok 0 := by
  obtain ⟨rt, f, hload, hmain, hm⟩ := main_ok env argv h1 h2
  exact ⟨rt, f, _, _, hload, hmain, by rw [hm]; rfl, by rw [hm]; rfl, by rw [hm]⟩

/-- Witness of `main_returns_zero`: the sample launch. -/
theorem main_returns_zero_witness :
    ∃ rt f n args,
      sampleEnv.loadLibrary (installed sampleEnv).fs (pythonDLLText (installed sampleEnv)) =
        some rt ∧
      rt.Py_Main = some f ∧
      (main sampleEnv ["launcher".toList]).calls.pyMainArgs = some (n, args) ∧
      (main sampleEnv ["launcher".toList]).calls.runtimeResult = some (f n args) ∧
      (main sampleEnv ["launcher".toList]).exit = .ok 0 :=
  main_returns_zero sampleEnv ["launcher".toList] (by decide) (by decide)

/-- C7 refuted as stated: the sample runtime returns `7`, the launcher's `main`
returns `0`. -/
theorem main_drops_return_code :
    (main sampleEnv ["launcher".toList]).calls.runtimeResult = some 7 ∧
    (main sampleEnv ["launcher".toList]).exit.toOption = some 0 := by
  decide

theorem digitChar_isDigit (d : Nat) (h : d < 10) :
    (Nat.digitChar d).isDigit = true ∧ (Nat.digitChar d).toNat - 48 = d := by
  interval_cases d <;> decide

/-- Reading back the digits `toDigitsCore` prepends. -/
theorem atoiDigits_toDigitsCore : ∀ (fuel n : Nat) (ds : List Char), n < fuel →
    atoiDigits 0 (Nat.toDigitsCore 10 fuel n ds) = atoiDigits n ds
  | 0, n, _, h => absurd h (Nat.not_lt_zero n)
  | fuel + 1, n, ds, h => by
    obtain ⟨hd1, hd2⟩ := digitChar_isDigit (n % 10) (Nat.mod_lt n (by decide))
    unfold Nat.toDigitsCore
    simp only
    split
    · rename_i h0
      have hn : n % 10 = n := by omega
      rw [hn] at hd1 hd2
      simp only [hn, atoiDigits, hd1, if_true, hd2, Nat.zero_mul, Nat.zero_add]
    · rename_i h0
      rw [atoiDigits_toDigitsCore fuel (n / 10) _ (by omega)]
      simp only [atoiDigits, hd1, if_true, hd2]
      congr 1
      omega

theorem toDigitsCore_head : ∀ (fuel n : Nat) (d : Char) (ds : List Char), d.isDigit = true →
    ∃ c cs, Nat.toDigitsCore 10 fuel n (d :: ds) = c :: cs ∧ c.isDigit = true
  | 0, _, d, ds, h => ⟨d, ds, rfl, h⟩
  | fuel + 1, n, d, ds, _ => by
    obtain ⟨hd1, -⟩ := digitChar_isDigit (n % 10) (Nat.mod_lt n (by decide))
    unfold Nat.toDigitsCore
    simp only
    split
    · exact ⟨_, _, rfl, hd1⟩
    · exact toDigitsCore_head fuel (n / 10) _ _ hd1

theorem toDigits_head (n : Nat) :
    ∃ c cs, Nat.toDigits 10 n = c :: cs ∧ c.isDigit = true := by
  obtain ⟨hd1, -⟩ := digitChar_isDigit (n % 10) (Nat.mod_lt n (by decide))
  unfold Nat.toDigits Nat.toDigitsCore
  simp only
  split
  · exact ⟨_, _, rfl, hd1⟩
  · exact toDigitsCore_head n (n / 10) _ _ hd1

theorem isDigit_not_special {c : Char} (h : c.isDigit = true) :
    isspace c = false ∧ (c == '-') = false ∧ (c == '+') = false := by
  have h48 : 48 ≤ c.toNat := by
    simp only [Char.isDigit, Bool.and_eq_true, decide_eq_true_eq] at h
    exact h.1
  refine ⟨?_, ?_, ?_⟩
  · unfold isspace
    have h1 : (c == ' ') = false := by
      apply beq_false_of_ne
      rintro rfl
      revert h48; decide
    have h2 : (decide (c.toNat ≤ 13)) = false := by
      apply decide_eq_false; omega
    simp [h1, h2]
  · apply beq_false_of_ne
    rintro rfl
    revert h48; decide
  · apply beq_false_of_ne
    rintro rfl
    revert h48; decide

/-- The function `atoi` reads the decimal numeral of `n` back as `n`. -/
theorem atoi_toDigits (n : Nat) (h : n < 2147483648) : atoi (Nat.toDigits 10 n) = n := by
  obtain ⟨c, cs, hcs, hc⟩ := toDigits_head n
  obtain ⟨hsp, hminus, hplus⟩ := isDigit_not_special hc
  have hval : atoiDigits 0 (c :: cs) = n := by
    rw [← hcs]
    unfold Nat.toDigits
    rw [atoiDigits_toDigitsCore (n + 1) n [] (Nat.lt_succ_self n)]
    rfl
  unfold atoi
  rw [hcs, List.dropWhile_cons_of_neg (by simp [hsp])]
  simp only [hminus, hplus, Bool.false_eq_true, if_false, hval]
  omega

theorem idOf_numeral {a : CStr} {n : Nat} (hname : (splitpath_s a).fname = Nat.toDigits 10 n)
    (hn : n < 65536) : idOf a = n := by
  unfold idOf MAKEINTRESOURCE
  rw [hname, atoi_toDigits n (by omega)]
  omega


theorem iconLoop_rcdata (env : PackEnv) : ∀ (ids : List Nat) (t : Target),
    ∃ t1, iconLoop env ids (some t) = some t1 ∧ t1.rcdata = t.rcdata
  | [], t => ⟨t, rfl, rfl⟩
  | nID :: rest, t => by
    obtain ⟨t1, h1, h2⟩ := iconLoop_rcdata env rest
      { t with icon := update t.icon (nID % 65536) (env.ownIcons (nID % 65536)) }
    exact ⟨t1, by simpa [iconLoop, UpdateResource_icon] using h1, h2⟩

/-- Payload files with other IDs leave the resource `n` alone. -/
theorem payloadLoop_keeps (env : PackEnv) (n : Nat) : ∀ (rest : List CStr) (t : Target),
    (∀ b ∈ rest, (env.files b).isSome = true) → (∀ b ∈ rest, idOf b ≠ n) →
    ∃ t1, payloadLoop env rest (some t) = .ok (some t1) ∧ t1.rcdata n = t.rcdata n
  | [], t, _, _ => ⟨t, rfl, rfl⟩
  | a :: rest, t, hf, hid => by
    obtain ⟨c, hc⟩ := Option.isSome_iff_exists.mp (hf a (by simp))
    obtain ⟨t1, h1, h2⟩ := payloadLoop_keeps env n rest
      { t with rcdata := update t.rcdata (idOf a) (some (bufferOf c)) }
      (fun b hb => hf b (List.mem_cons_of_mem a hb))
      (fun b hb => hid b (List.mem_cons_of_mem a hb))
    refine ⟨t1, ?_, ?_⟩
    · simpa [payloadLoop, hc, UpdateResource_rcdata, idOf, bufferOf] using h1
    · rw [h2]
      have hne : n ≠ idOf a := fun e => hid a (by simp) e.symm
      simp [update, hne]

/-- The resource `n` ends with the bytes of the last payload file whose ID is `n`. -/
theorem payloadLoop_at (env : PackEnv) (n : Nat) : ∀ (rest : List CStr) (t : Target) (k : Nat)
    (a : CStr), (∀ b ∈ rest, (env.files b).isSome = true) → rest.get? k = some a →
    idOf a = n → (∀ b ∈ rest.drop (k + 1), idOf b ≠ n) →
    ∃ t1, payloadLoop env rest (some t) = .ok (some t1) ∧
      t1.rcdata n = (env.files a).map bufferOf
  | [], _, _, _, _, h, _, _ => by simp at h
  | b :: rest, t, 0, a, hf, h, hid, hlast => by
    simp only [List.get?_cons_zero, Option.some.injEq] at h
    subst h
    obtain ⟨c, hc⟩ := Option.isSome_iff_exists.mp (hf b (by simp))
    obtain ⟨t1, h1, h2⟩ := payloadLoop_keeps env n rest
      { t with rcdata := update t.rcdata (idOf b) (some (bufferOf c)) }
      (fun x hx => hf x (List.mem_cons_of_mem b hx))
      (fun x hx => hlast x (by simpa using hx))
    refine ⟨t1, ?_, ?_⟩
    · simpa [payloadLoop, hc, UpdateResource_rcdata, idOf, bufferOf] using h1
    · rw [h2, hc]
      simp [update, hid]
  | b :: rest, t, k + 1, a, hf, h, hid, hlast => by
    simp only [List.get?_cons_succ] at h
    obtain ⟨c, hc⟩ := Option.isSome_iff_exists.mp (hf b (by simp))
    obtain ⟨t1, h1, h2⟩ := payloadLoop_at env n rest
      { t with rcdata := update t.rcdata (idOf b) (some (bufferOf c)) } k a
      (fun x hx => hf x (List.mem_cons_of_mem b hx)) h hid
      (fun x hx => hlast x (by simpa using hx))
    exact ⟨t1, by simpa [payloadLoop, hc, UpdateResource_rcdata, idOf, bufferOf] using h1, h2⟩

/-- C9, as amended: when the packer's icon group exists, the target can be
opened and every payload file can be read, then for every payload argument
`argv[i]` (`i ≥ 3`) whose base name is the decimal numeral of a resource ID
`n` (`0 < n < 65536`), whose file is shorter than 4 GiB, and after which no
payload argument yields the same ID, the packer's `main` returns and the
`RT_RCDATA` resource `n` of the target holds exactly the bytes of that file. -/
theorem packer_round_trip (env : PackEnv) (argv : List CStr) (target : Target)
    (group : IconGroup) (i n : Nat) (a : CStr) (bytes : List Char)
    (hgroup : env.ownGroups (iconChoiceOf env argv % 65536) = some group)
    (htarget : (argv.get? 2).bind env.targets = some target)
    (hfiles : ∀ b ∈ argv.drop 3, (env.files b).isSome = true)
    (hi : 3 ≤ i) (ha : argv.get? i = some a)
    (hbytes : env.files a = some bytes) (hsize : bytes.length < 4294967296)
    (hname : (splitpath_s a).fname = Nat.toDigits 10 n) (_hpos : 0 < n) (hn : n < 65536)
    (hlast : ∀ b ∈ argv.drop (i + 1), idOf b ≠ n) :
    ∃ t, packerMain env argv = .ok (some t) ∧ t.rcdata n = some bytes := by
  have hlen : i < argv.length := by
    rw [List.get?_eq_getElem?] at ha
    exact (List.getElem?_eq_some_iff.mp ha).1
  obtain ⟨c1, h1⟩ : ∃ c1, argv.get? 1 = some c1 :=
    ⟨argv.get ⟨1, by omega⟩, List.get?_eq_get _⟩
  have hchoice : iconChoiceOf env argv =
      (if c1 = "debug".toList then env.IDI_DEBUG else env.IDI_STANDARD) := by
    unfold iconChoiceOf
    rw [h1]
  rw [hchoice] at hgroup
  obtain ⟨j, rfl⟩ : ∃ j, i = 3 + j := ⟨i - 3, by omega⟩
  have hj : (argv.drop 3).get? j = some a := by
    rw [List.get?_eq_getElem?] at ha ⊢
    rw [List.getElem?_drop]
    exact ha
  have hdrop : (argv.drop 3).drop (j + 1) = argv.drop (3 + j + 1) := by
    rw [List.drop_drop, Nat.add_assoc]
  obtain ⟨t2, ht2, hrc⟩ := iconLoop_rcdata env group.ids
    { target with groupIcon := update target.groupIcon (101 % 65536) (some group.blob) }
  obtain ⟨t3, ht3, hres⟩ := payloadLoop_at env n (argv.drop 3) t2 j a hfiles hj
    (idOf_numeral hname hn) (by rw [hdrop]; exact hlast)
  refine ⟨t3, ?_, ?_⟩
  · simp only [packerMain, bind, Except.bind, h1, hgroup, htarget, UpdateResource_groupIcon,
      Option.map_some']
    rw [ht2]
    exact ht3
  · rw [hres, hbytes]
    simp only [Option.map_some', bufferOf, Nat.mod_eq_of_lt hsize, List.take_length]

/-- Witness of `packer_round_trip`: the file `C:\out\37.py` is read back from
resource 37. -/
theorem packer_round_trip_witness :
    ∃ t, packerMain samplePackEnv
        ["pack".toList, "std".toList, "t.exe".toList, "C:\\out\\37.py".toList,
          "a\\42.bin".toList] = .ok (some t) ∧
      t.rcdata 37 = some "print(1)".toList :=
  packer_round_trip samplePackEnv
    ["pack".toList, "std".toList, "t.exe".toList, "C:\\out\\37.py".toList, "a\\42.bin".toList]
    blankTarget { blob := "GRP".toList, ids := [1] } 3 37 "C:\\out\\37.py".toList
    "print(1)".toList rfl rfl (by decide) (by decide) rfl rfl (by decide) (by decide)
    (by decide) (by decide) (by decide)

/-- C9 refuted as stated: `a\42.bin` and `b\42.txt` both have the base name
`42`; after the packer has run, resource 42 holds the bytes of the second file,
not those of the first. -/
theorem packer_same_id_last_wins :
    (splitpath_s "a\\42.bin".toList).fname = Nat.toDigits 10 42 ∧
    samplePackEnv.files "a\\42.bin".toList = some "AAA".toList ∧
    (packerMain samplePackEnv
        ["pack".toList, "std".toList, "t.exe".toList, "a\\42.bin".toList,
          "b\\42.txt".toList]).toOption.map (fun h => h.map (fun t => t.rcdata 42)) =
      some (some (some "BBB".toList)) := by
  decide

end Stationexec
